import Mathlib

/-!
Verification of the client-side download lifecycle controller in
`src/static/script.js` (class `YouTubeDownloader`).

The JavaScript is shallowly embedded: numbers handled by the script are
modelled as rationals (the script only does exact arithmetic on the values
the claims mention), JS falsiness of strings and numbers is modelled
explicitly, and the event-driven controller (timer ticks, fetch
resolutions, animation frames, form submissions) is modelled as a step
function on an explicit state record driven by a list of events.
-/

namespace YTD

/-- JS `a || b` for an optional string field: `undefined` and the empty
string are falsy, so the default is used for both. -/
def jsOrStr (o : Option String) (dflt : String) : String :=
  match o with
  | none => dflt
  | some s => if s = "" then dflt else s

/-- JS `x || d` for an optional numeric field: `undefined` and `0` are
falsy, so the default is used for both. -/
def jsOrQ (o : Option ℚ) (dflt : ℚ) : ℚ :=
  match o with
  | none => dflt
  | some q => if q = 0 then dflt else q

/-- JS `Math.round`: round half towards positive infinity. -/
def jsRound (q : ℚ) : ℤ :=
  ⌊q + 1/2⌋

/-- JS `Number.prototype.toFixed(1)` on a non-negative exact value: round
half up to one decimal and print with exactly one digit after the point.
The script only applies it to positive speeds. -/
def toFixed1 (q : ℚ) : String :=
  let n : ℤ := ⌊q * 10 + 1/2⌋
  toString (n / 10) ++ "." ++ toString (n % 10)

/-! ## Validator: `isValidYouTubeUrl` (script.js lines 287-298)

The four regular expressions are anchored at the start only, so each one
matches exactly when the string starts with the literal shape followed by
at least one identifier character (`[\w-]`, i.e. ASCII letter, digit,
underscore or hyphen); arbitrary text may follow the identifier. The
optional groups `https?` and `(www\.)?` are matched greedily, which agrees
with regex backtracking here because the committed alternative and the
skipped alternative can never both lead to a match (the following literal
starts with a different character). -/

/-- JS regex class `[\w-]` without the unicode flag: ASCII word character
or hyphen. -/
def isWordDash (c : Char) : Bool :=
  c.isAlpha || c.isDigit || c = '_' || c = '-'

/-- Consume an exact literal from the head of the input, returning the
rest on success. -/
def stripLit : List Char → List Char → Option (List Char)
  | [], rest => some rest
  | _ :: _, [] => none
  | c :: cs, d :: ds => if d = c then stripLit cs ds else none

/-- Match `^https?:\/\/` and return the remaining input. -/
def schemeRest (cs : List Char) : Option (List Char) :=
  match stripLit ['h', 't', 't', 'p'] cs with
  | none => none
  | some r =>
    match r with
    | 's' :: r2 => stripLit [':', '/', '/'] r2
    | r2 => stripLit [':', '/', '/'] r2

/-- Match the optional group `(www\.)?`. -/
def optWWW (cs : List Char) : List Char :=
  match stripLit ['w', 'w', 'w', '.'] cs with
  | some r => r
  | none => cs

/-- Match `[\w-]+` followed by anything: the regexes are not anchored at
the end, so one identifier character suffices. -/
def tailIdent (cs : List Char) : Bool :=
  match cs with
  | c :: _ => isWordDash c
  | [] => false

/-- Regex 1: `^https?:\/\/(www\.)?youtube\.com\/watch\?v=[\w-]+`. -/
def matchWatch (url : String) : Bool :=
  match schemeRest url.data with
  | none => false
  | some r =>
    match stripLit "youtube.com/watch?v=".data (optWWW r) with
    | some r2 => tailIdent r2
    | none => false

/-- Regex 2: `^https?:\/\/youtu\.be\/[\w-]+` (no optional `www.`). -/
def matchShort (url : String) : Bool :=
  match schemeRest url.data with
  | none => false
  | some r =>
    match stripLit "youtu.be/".data r with
    | some r2 => tailIdent r2
    | none => false

/-- Regex 3: `^https?:\/\/(www\.)?youtube\.com\/shorts\/[\w-]+`. -/
def matchShorts (url : String) : Bool :=
  match schemeRest url.data with
  | none => false
  | some r =>
    match stripLit "youtube.com/shorts/".data (optWWW r) with
    | some r2 => tailIdent r2
    | none => false

/-- Regex 4: `^https?:\/\/(www\.)?youtube\.com\/embed\/[\w-]+`. -/
def matchEmbed (url : String) : Bool :=
  match schemeRest url.data with
  | none => false
  | some r =>
    match stripLit "youtube.com/embed/".data (optWWW r) with
    | some r2 => tailIdent r2
    | none => false

/-- `isValidYouTubeUrl(url)`: reject empty or whitespace-only input
(JS `!url || !url.trim()`), then test the four patterns. -/
def isValidYouTubeUrl (url : String) : Bool :=
  if url.data.all Char.isWhitespace then false
  else matchWatch url || matchShort url || matchShorts url || matchEmbed url

/-! ## Formatters (script.js lines 303-335) -/

/-- The unit table `['B/s', 'KB/s', 'MB/s', 'GB/s']`. -/
def speedUnit : ℕ → String
  | 0 => "B/s"
  | 1 => "KB/s"
  | 2 => "MB/s"
  | _ => "GB/s"

/-- The `while (speed >= 1024 && unitIndex < units.length - 1)` loop of
`formatSpeed`. The index strictly increases each iteration and the guard
requires it below 3, so three units of fuel always reach the fixpoint. -/
def speedLoop (fuel : ℕ) (speed : ℚ) (unitIndex : ℕ) : ℚ × ℕ :=
  match fuel with
  | 0 => (speed, unitIndex)
  | f + 1 =>
    if 1024 ≤ speed ∧ unitIndex < 3 then speedLoop f (speed / 1024) (unitIndex + 1)
    else (speed, unitIndex)

/-- `formatSpeed(bytesPerSecond)`: zero (falsy) input short-circuits to
"0 B/s"; otherwise divide by 1024 while at least 1024 and units remain,
then print to one decimal place with the reached unit. -/
def formatSpeed (bytesPerSecond : ℚ) : String :=
  if bytesPerSecond = 0 then "0 B/s"
  else
    let r := speedLoop 3 bytesPerSecond 0
    toFixed1 r.1 ++ " " ++ speedUnit r.2

/-- JS `a % b` for non-negative `a` and positive `b`, as used on the
positive branch of `formatTime`. -/
def jsMod (a b : ℚ) : ℚ :=
  a - b * (⌊a / b⌋ : ℤ)

/-- `formatTime(seconds)`: falsy (zero) or negative input yields "0s";
under a minute, ceil the seconds; under an hour, minutes and ceiled
seconds; otherwise hours and minutes. -/
def formatTime (seconds : ℚ) : String :=
  if seconds = 0 ∨ seconds < 0 then "0s"
  else if seconds < 60 then toString ⌈seconds⌉ ++ "s"
  else if seconds < 3600 then
    let mins : ℤ := ⌊seconds / 60⌋
    let secs : ℤ := ⌈jsMod seconds 60⌉
    toString mins ++ "m " ++ toString secs ++ "s"
  else
    let hours : ℤ := ⌊seconds / 3600⌋
    let mins : ℤ := ⌊jsMod seconds 3600 / 60⌋
    toString hours ++ "h " ++ toString mins ++ "m"

/-- A call of `formatTime` whose argument may be absent: JS
`formatTime(undefined)` takes the `!seconds` guard and returns "0s". -/
def formatTimeOpt (seconds : Option ℚ) : String :=
  match seconds with
  | none => "0s"
  | some v => formatTime v

/-! ## Controller state model

The mutable fields of the `YouTubeDownloader` instance together with the
observable DOM sinks it writes, plus two pieces of pending-work
bookkeeping that the browser runtime owns: the list of status fetches
currently in flight (one entry per tick whose `await fetch` has not yet
resolved, recording the task id interpolated into the request URL at tick
time) and the list of percentage animations whose `requestAnimationFrame`
loop is still running (each records the captured start and target
values). -/

/-- Which result container is visible (after `hideAllContainers` plus the
matching `show*` call); `form` means none of the three is shown. -/
inductive View where
  | form
  | progress
  | error
  | result
deriving DecidableEq, Repr

/-- One running percentage animation: `startPercent` is captured from
`this.lastPercent` when `animatePercentage` is called, `target` is its
argument. -/
structure Anim where
  startPercent : ℚ
  target : ℚ
deriving DecidableEq, Repr

/-- The controller state. -/
structure St where
  currentTaskId : Option String
  /-- Whether `this.pollInterval` holds a live timer. -/
  pollActive : Bool
  /-- Status fetches in flight: the task id captured in each request URL. -/
  inflight : List String
  /-- `this.lastPercent`. -/
  lastPercent : ℚ
  /-- Width of the progress bar fill, as set by `updateProgress`. -/
  fillWidth : ℚ
  /-- Text content of the percentage counter. -/
  displayedPercent : ℤ
  statusText : String
  infoText : String
  view : View
  errorMsg : String
  resultFilename : String
  /-- Whether the submit button is in the loading state. -/
  loading : Bool
  /-- Animations whose frame loop is still running. -/
  anims : List Anim
deriving DecidableEq, Repr

/-- State when the page loads: constructor of `YouTubeDownloader`. -/
def initSt : St :=
  { currentTaskId := none, pollActive := false, inflight := [],
    lastPercent := 0, fillWidth := 0, displayedPercent := 0,
    statusText := "", infoText := "", view := .form, errorMsg := "",
    resultFilename := "", loading := false, anims := [] }

/-- Body of a 2xx response of `GET /api/status/{id}`. -/
structure StatusData where
  status : Option String
  progress : Option ℚ
  speed : Option ℚ
  eta : Option ℚ
  filename : Option String
  error : Option String
deriving DecidableEq, Repr

/-- Body and HTTP outcome of the `POST /api/download` response. -/
structure SubmitResp where
  ok : Bool
  message : Option String
  error : Option String
  task_id : Option String
deriving DecidableEq, Repr

/-- Outcome of one status fetch: 2xx with a JSON body, non-2xx, or a
transport-level failure that makes `fetch` throw. -/
inductive FetchResult where
  | ok (d : StatusData)
  | httpErr
  | netErr
deriving DecidableEq, Repr

/-- `stopPolling()`. -/
def stopPolling (s : St) : St :=
  { s with pollActive := false }

/-- The `setInterval` call of `startPolling()` (any previous timer was
just cleared, so a single liveness flag models the unique timer). -/
def startPolling (s : St) : St :=
  { s with pollActive := true }

/-- `showError(message)`. -/
def showError (s : St) (message : String) : St :=
  { s with view := .error, errorMsg := message }

/-- `showProgress()`. -/
def showProgress (s : St) : St :=
  { s with view := .progress }

/-- `showResult(data)`. -/
def showResult (s : St) (d : StatusData) : St :=
  { s with view := .result, resultFilename := jsOrStr d.filename "Download ready" }

/-- `setLoadingState(loading)`. -/
def setLoadingState (s : St) (loading : Bool) : St :=
  { s with loading := loading }

/-- `resetUI()`: hide every container, zero the progress display and
`lastPercent`, clear the task id, stop the timer. Fetches already in
flight and animation loops already running are promises and frame
callbacks the runtime still holds, so they stay pending. -/
def resetUI (s : St) : St :=
  stopPolling
    { s with view := .form, fillWidth := 0, statusText := "Preparing...",
             displayedPercent := 0, infoText := "", lastPercent := 0,
             currentTaskId := none }

/-- Status label mapping of `updateProgress`. -/
def mapStatus (st : String) : String :=
  if st = "downloading" then "Downloading..."
  else if st = "processing" then "Processing..."
  else st

/-- The speed and ETA line of `updateProgress`: shown only when
`data.speed` is truthy and positive; the separator bytes are the ones in
the source file. -/
def infoLine (d : StatusData) : String :=
  match d.speed with
  | none => ""
  | some v =>
    if 0 < v then
      let sp := formatSpeed v
      let eta := match d.eta with
        | none => ""
        | some e => if e = 0 then "" else formatTime e
      if eta = "" then sp else sp ++ " â€¢ " ++ eta ++ " remaining"
    else ""

/-- `animatePercentage(targetPercent)`: capture `this.lastPercent` as the
start value and launch a new frame loop. The code never cancels a loop
already running. -/
def animatePercentage (s : St) (targetPercent : ℚ) : St :=
  { s with anims := s.anims ++ [⟨s.lastPercent, targetPercent⟩] }

/-- `updateProgress(data)` (script.js lines 145-171): clamp with
`Math.min(data.progress || 0, 100)`, animate the counter, set the bar
width, map the status label, build the info line. -/
def updateProgress (s : St) (d : StatusData) : St :=
  let progress := min (jsOrQ d.progress 0) 100
  let s1 := animatePercentage s progress
  { s1 with fillWidth := progress,
            statusText := mapStatus (jsOrStr d.status "processing"),
            infoText := infoLine d }

/-- The ease-out cubic sample of one animation frame at normalized time
`p`: `Math.round(startPercent + (targetPercent - startPercent) * (1 - (1 - p)^3))`. -/
def easeOutSample (a : Anim) (p : ℚ) : ℤ :=
  jsRound (a.startPercent + (a.target - a.startPercent) * (1 - (1 - p) ^ 3))

/-- Continuation of the poll tick callback once its fetch settles
(script.js lines 105-128). The callback resumes on the current
controller state without re-reading or re-checking `currentTaskId`. -/
def pollTickResolve (s : St) (r : FetchResult) : St :=
  match r with
  | .ok d =>
    let s1 := updateProgress s d
    if d.status.getD "" = "completed" then
      setLoadingState (showResult (stopPolling s1) d) false
    else if d.status.getD "" = "error" then
      setLoadingState (showError (stopPolling s1) (jsOrStr d.error "Download failed")) false
    else s1
  | .httpErr =>
    setLoadingState (showError (stopPolling s) "Download task expired") false
  | .netErr => s

/-- Continuation of `handleSubmit` once the `POST /api/download` response
settles: on success store the task id, show the progress view and start
polling; on failure the thrown message is `data.message || data.error ||
'Download failed'` and the catch block shows it. -/
def submitFinish (s : St) (resp : SubmitResp) : St :=
  if resp.ok then
    startPolling (showProgress { s with currentTaskId := resp.task_id })
  else
    setLoadingState
      (showError s (jsOrStr resp.message (jsOrStr resp.error "Download failed"))) false

/-- Events of the single-threaded browser loop that drive the
controller. -/
inductive Ev where
  /-- The interval timer fires and the tick callback runs up to its
  `await fetch`. -/
  | tick
  /-- The fetch of in-flight tick `i` settles with result `r` and the
  tick callback resumes. -/
  | resolve (i : ℕ) (r : FetchResult)
  /-- A frame of running animation `i` fires at normalized time `p`. -/
  | animFrame (i : ℕ) (p : ℚ)
  /-- A valid form submission runs synchronously up to its `await fetch`:
  `resetUI()` then `setLoadingState(true)`. -/
  | submitReset
  /-- The submission fetch settles with response `resp`. -/
  | submitDone (resp : SubmitResp)

/-- One step of the event loop. -/
def step (s : St) : Ev → St
  | .tick =>
    if s.pollActive then
      if s.currentTaskId.getD "" = "" then stopPolling s
      else { s with inflight := s.inflight ++ [s.currentTaskId.getD ""] }
    else s
  | .resolve i r =>
    match s.inflight.get? i with
    | none => s
    | some _ => pollTickResolve { s with inflight := s.inflight.eraseIdx i } r
  | .animFrame i p =>
    match s.anims.get? i with
    | none => s
    | some a =>
      let pr := min p 1
      if pr < 1 then { s with displayedPercent := easeOutSample a pr }
      else
        { s with displayedPercent := easeOutSample a 1,
                 lastPercent := a.target,
                 anims := s.anims.eraseIdx i }
  | .submitReset => setLoadingState (resetUI s) true
  | .submitDone resp => submitFinish s resp

/-- Run a list of events. -/
def run (s : St) (es : List Ev) : St :=
  es.foldl step s

/-! ## Concrete data used by witnesses and counterexamples -/

/-- A downloading snapshot with a given progress value and no metrics. -/
def dlSnap (p : ℚ) : StatusData :=
  ⟨some "downloading", some p, none, none, none, none⟩

/-- A successful submission response carrying a task id. -/
def okSubmit (tid : String) : Ev :=
  .submitDone ⟨true, none, none, some tid⟩

/-- A state polling task t1 with one status fetch in flight. -/
def pollingSt : St :=
  { initSt with currentTaskId := some "t1", pollActive := true, inflight := ["t1"] }

/-- A state whose timer is live although the task id was already cleared
by a reset. -/
def clearedSt : St :=
  { initSt with pollActive := true }

/-- A state with one animation running from 0 towards 40. -/
def animSt : St :=
  { initSt with anims := [⟨0, 40⟩] }

/-- A rejected submission whose body has only the generic error field. -/
def failResp : SubmitResp :=
  ⟨false, none, some "boom", none⟩

/-! ## Reduction helpers for the step function -/

/-- A resolve event whose index is a live in-flight fetch resumes the tick
callback on the current state. -/
theorem step_resolve_inflight (s : St) (i : ℕ) (r : FetchResult) (tid : String)
    (h : s.inflight.get? i = some tid) :
    step s (.resolve i r) = pollTickResolve { s with inflight := s.inflight.eraseIdx i } r := by
  simp only [step, h]

/-- A tick does nothing once the timer was cleared. -/
theorem tick_inactive (s : St) (h : s.pollActive = false) : step s .tick = s := by
  simp only [step]
  rw [h, if_neg Bool.false_ne_true]

/-! ## C1: progress clamping -/

/-- C1 counterexample: the claim says the displayed percentage is clamped
into [0, 100] even when the backend reports a negative progress value,
but `Math.min(data.progress || 0, 100)` only clamps from above: a
snapshot with progress -5 drives the displayed bar width to -5. -/
theorem updateProgress_negative_progress_displayed :
    (run initSt [.submitReset, okSubmit "t1", .tick,
      .resolve 0 (.ok (dlSnap (-5)))]).fillWidth = -5 ∧
    ¬ (0 ≤ (run initSt [.submitReset, okSubmit "t1", .tick,
      .resolve 0 (.ok (dlSnap (-5)))]).fillWidth) := by
  decide

/-- C1 amended: `updateProgress` clamps the snapshot progress to at most
100 and treats a missing value as 0, and the displayed value stays in
[0, 100] whenever the backend value is non-negative; a negative value
passes through unclamped. -/
theorem updateProgress_clamp_upper (s : St) (d : StatusData) :
    (updateProgress s d).fillWidth ≤ 100 ∧
    (0 ≤ jsOrQ d.progress 0 → 0 ≤ (updateProgress s d).fillWidth) ∧
    (d.progress = none → (updateProgress s d).fillWidth = 0) := by
  refine ⟨min_le_right _ _, fun h => le_min h (by norm_num), fun h => ?_⟩
  show min (jsOrQ d.progress 0) 100 = 0
  rw [h]
  show min 0 100 = 0
  exact min_eq_left (by norm_num)

/-- C1 amended witness at a backend value of 40. -/
theorem updateProgress_clamp_upper_witness :
    0 ≤ (updateProgress initSt (dlSnap 40)).fillWidth ∧
    (updateProgress initSt (dlSnap 40)).fillWidth ≤ 100 := by
  exact ⟨(updateProgress_clamp_upper initSt (dlSnap 40)).2.1 (by decide),
    (updateProgress_clamp_upper initSt (dlSnap 40)).1⟩

/-! ## C2: stale snapshots of a superseded task -/

/-- C2 counterexample: submit task t1, let one status fetch go in flight,
then submit again (reset plus new task t2). At that point the t1 fetch is
still in flight and the progress display is 0; when it resolves with
progress 77, the tick callback resumes without re-checking task identity
and applies the old snapshot of t1 to the UI of the new task. -/
theorem stale_fetch_applied_after_new_submission :
    (run initSt [.submitReset, okSubmit "t1", .tick, .submitReset,
      okSubmit "t2"]).inflight = ["t1"] ∧
    (run initSt [.submitReset, okSubmit "t1", .tick, .submitReset,
      okSubmit "t2"]).fillWidth = 0 ∧
    (run initSt [.submitReset, okSubmit "t1", .tick, .submitReset,
      okSubmit "t2", .resolve 0 (.ok (dlSnap 77))]).fillWidth = 77 := by
  refine ⟨by decide, by decide, by decide⟩

/-- C2 amended: the task-identity guard runs only at the start of a tick,
before the fetch is launched: a tick firing after a reset cleared the
task id stops the timer and launches no fetch. A fetch already in flight
when the reset happened is not discarded when it resolves. -/
theorem tick_guard_after_reset (s : St) (hp : s.pollActive = true)
    (ht : s.currentTaskId = none) :
    step s .tick = { s with pollActive := false } := by
  simp only [step]
  rw [hp, if_pos rfl]
  rw [if_pos (show s.currentTaskId.getD "" = "" by rw [ht]; rfl)]
  rfl

/-- C2 amended witness: a live timer with a cleared task id. -/
theorem tick_guard_after_reset_witness :
    step clearedSt .tick = { clearedSt with pollActive := false } :=
  tick_guard_after_reset clearedSt rfl rfl

/-! ## C3: non-2xx status response is terminal -/

/-- C3: when a poll fetch resolves with a non-2xx response, the callback
stops the timer, shows the error view with the message "Download task
expired", clears the loading state, and a later tick is a no-op, so
there is no retry. -/
theorem status_httpErr_terminal (s : St) (i : ℕ) (tid : String)
    (h : s.inflight.get? i = some tid) :
    (step s (.resolve i .httpErr)).pollActive = false ∧
    (step s (.resolve i .httpErr)).view = View.error ∧
    (step s (.resolve i .httpErr)).errorMsg = "Download task expired" ∧
    (step s (.resolve i .httpErr)).loading = false ∧
    step (step s (.resolve i .httpErr)) .tick = step s (.resolve i .httpErr) := by
  rw [step_resolve_inflight s i .httpErr tid h]
  exact ⟨rfl, rfl, rfl, rfl, tick_inactive _ rfl⟩

/-- C3 witness on a polling state with one in-flight fetch. -/
theorem status_httpErr_terminal_witness :
    (step pollingSt (.resolve 0 .httpErr)).errorMsg = "Download task expired" ∧
    (step pollingSt (.resolve 0 .httpErr)).pollActive = false := by
  exact ⟨(status_httpErr_terminal pollingSt 0 "t1" rfl).2.2.1,
    (status_httpErr_terminal pollingSt 0 "t1" rfl).1⟩

/-! ## C4: transport failure on one tick is swallowed -/

/-- C4: when a poll fetch fails at the transport level, the catch block
only logs: the resulting state differs from the previous one only by the
fetch no longer being in flight, so the timer, the task id and every UI
field are untouched and the next tick fires normally. -/
theorem status_netErr_swallowed (s : St) (i : ℕ) (tid : String)
    (h : s.inflight.get? i = some tid) :
    step s (.resolve i .netErr) = { s with inflight := s.inflight.eraseIdx i } := by
  rw [step_resolve_inflight s i .netErr tid h]
  rfl

/-- C4 witness on a polling state with one in-flight fetch. -/
theorem status_netErr_swallowed_witness :
    step pollingSt (.resolve 0 .netErr) = { pollingSt with inflight := [] } := by
  exact (status_netErr_swallowed pollingSt 0 "t1" rfl).trans (by decide)

/-! ## C7: overlapping fetches -/

/-- C7 counterexample: the claim says a tick is skipped while the
previous fetch is unresolved; in the code every tick with an active task
launches a fetch, so two consecutive ticks with no resolution in between
leave two fetches in flight for the same task. -/
theorem overlapping_fetches_possible :
    (run initSt [.submitReset, okSubmit "t1", .tick, .tick]).inflight = ["t1", "t1"] ∧
    ¬ ((run initSt [.submitReset, okSubmit "t1", .tick, .tick]).inflight.length ≤ 1) := by
  decide

/-- C7 amended: every tick whose task id is set launches a status fetch
unconditionally: the tick callback has no in-flight guard, so the number
of concurrent fetches is not bounded by one. -/
theorem tick_always_launches_fetch (s : St) (tid : String)
    (hp : s.pollActive = true) (ht : s.currentTaskId = some tid) (hne : tid ≠ "") :
    step s .tick = { s with inflight := s.inflight ++ [tid] } := by
  simp only [step]
  rw [hp, if_pos rfl]
  rw [if_neg (show ¬ (s.currentTaskId.getD "" = "") by rw [ht]; exact hne)]
  rw [ht]
  rfl

/-- C7 amended witness: a tick on a state that already has a fetch in
flight launches a second one. -/
theorem tick_always_launches_fetch_witness :
    step pollingSt .tick = { pollingSt with inflight := ["t1", "t1"] } := by
  exact (tick_always_launches_fetch pollingSt "t1" rfl rfl (by decide)).trans (by decide)

/-! ## C5: the URL validator -/

/-- A whitespace-only input cannot start with the literal h of http. -/
theorem stripLit_http_of_whitespace {cs : List Char}
    (h : cs.all Char.isWhitespace = true) :
    stripLit ['h', 't', 't', 'p'] cs = none := by
  cases cs with
  | nil => rfl
  | cons c cs' =>
    simp only [List.all_cons, Bool.and_eq_true] at h
    have hc : ¬ (c = 'h') := by
      intro hc
      rw [hc] at h
      exact absurd h.1 (by decide)
    simp only [stripLit]
    rw [if_neg hc]

/-- The scheme matcher fails on whitespace-only input. -/
theorem schemeRest_of_whitespace {cs : List Char}
    (h : cs.all Char.isWhitespace = true) : schemeRest cs = none := by
  unfold schemeRest
  rw [stripLit_http_of_whitespace h]

/-- The watch-page pattern rejects whitespace-only input. -/
theorem matchWatch_of_whitespace {url : String}
    (h : url.data.all Char.isWhitespace = true) : matchWatch url = false := by
  unfold matchWatch
  rw [schemeRest_of_whitespace h]

/-- The short-link pattern rejects whitespace-only input. -/
theorem matchShort_of_whitespace {url : String}
    (h : url.data.all Char.isWhitespace = true) : matchShort url = false := by
  unfold matchShort
  rw [schemeRest_of_whitespace h]

/-- The shorts pattern rejects whitespace-only input. -/
theorem matchShorts_of_whitespace {url : String}
    (h : url.data.all Char.isWhitespace = true) : matchShorts url = false := by
  unfold matchShorts
  rw [schemeRest_of_whitespace h]

/-- The embed pattern rejects whitespace-only input. -/
theorem matchEmbed_of_whitespace {url : String}
    (h : url.data.all Char.isWhitespace = true) : matchEmbed url = false := by
  unfold matchEmbed
  rw [schemeRest_of_whitespace h]

/-- C5: `isValidYouTubeUrl` returns true exactly when one of the four
locator shapes matches (each shape demanding at least one word/hyphen
identifier character after its literal part, with arbitrary text allowed
after it, as the unanchored regexes do); empty and whitespace-only
strings are rejected, as are non-matching hosts and shapes with an empty
identifier. Sample accepted and rejected inputs are included. -/
theorem isValidYouTubeUrl_spec :
    (∀ url : String, isValidYouTubeUrl url =
      (matchWatch url || matchShort url || matchShorts url || matchEmbed url)) ∧
    (∀ url : String, url.data.all Char.isWhitespace = true →
      isValidYouTubeUrl url = false) ∧
    isValidYouTubeUrl "https://www.youtube.com/watch?v=dQw4w9WgXcQ" = true ∧
    isValidYouTubeUrl "https://youtu.be/abc123" = true ∧
    isValidYouTubeUrl "https://www.youtube.com/shorts/xYz-9_q" = true ∧
    isValidYouTubeUrl "http://youtube.com/embed/id42" = true ∧
    isValidYouTubeUrl "" = false ∧
    isValidYouTubeUrl "   " = false ∧
    isValidYouTubeUrl "https://example.com/watch?v=abc" = false ∧
    isValidYouTubeUrl "https://www.youtube.com/watch?v=" = false := by
  refine ⟨?_, ?_, by decide, by decide, by decide, by decide, by decide, by decide,
    by decide, by decide⟩
  · intro url
    unfold isValidYouTubeUrl
    by_cases hw : url.data.all Char.isWhitespace = true
    · rw [if_pos hw, matchWatch_of_whitespace hw, matchShort_of_whitespace hw,
        matchShorts_of_whitespace hw, matchEmbed_of_whitespace hw]
      rfl
    · rw [if_neg hw]
  · intro url hw
    unfold isValidYouTubeUrl
    rw [if_pos hw]

/-- C5 witness: the whitespace clause applied to a one-space input. -/
theorem isValidYouTubeUrl_spec_witness :
    isValidYouTubeUrl " " = false :=
  isValidYouTubeUrl_spec.2.1 " " (by decide)

/-! ## C6: submission failure -/

/-- A present, non-empty field wins the JS or-chain. -/
theorem jsOrStr_some_ne {m : String} (d : String) (h : ¬ (m = "")) :
    jsOrStr (some m) d = m := by
  simp only [jsOrStr]
  rw [if_neg h]

/-- A missing or empty field falls through to the default. -/
theorem jsOrStr_falsy {o : Option String} (d : String)
    (h : o = none ∨ o = some "") : jsOrStr o d = d := by
  rcases h with h | h
  · rw [h]
    rfl
  · rw [h]
    rfl

/-- C6: a failed submission shows the error view with the message chosen
in preference order message, error, then the default "Download failed"
(JS truthiness: a present-but-empty field also falls through), stores no
task id, and starts no polling. -/
theorem submit_failure_message_and_no_polling (s : St) (resp : SubmitResp)
    (h : resp.ok = false) :
    (step (step s .submitReset) (.submitDone resp)).currentTaskId = none ∧
    (step (step s .submitReset) (.submitDone resp)).pollActive = false ∧
    (step (step s .submitReset) (.submitDone resp)).view = View.error ∧
    (step (step s .submitReset) (.submitDone resp)).loading = false ∧
    (step (step s .submitReset) (.submitDone resp)).errorMsg =
      jsOrStr resp.message (jsOrStr resp.error "Download failed") ∧
    (∀ m, resp.message = some m → ¬ (m = "") →
      (step (step s .submitReset) (.submitDone resp)).errorMsg = m) ∧
    (∀ e, (resp.message = none ∨ resp.message = some "") → resp.error = some e →
      ¬ (e = "") →
      (step (step s .submitReset) (.submitDone resp)).errorMsg = e) ∧
    ((resp.message = none ∨ resp.message = some "") →
      (resp.error = none ∨ resp.error = some "") →
      (step (step s .submitReset) (.submitDone resp)).errorMsg = "Download failed") := by
  have e0 : step (step s .submitReset) (.submitDone resp)
      = submitFinish (setLoadingState (resetUI s) true) resp := rfl
  rw [e0]
  simp only [submitFinish]
  rw [h, if_neg Bool.false_ne_true]
  refine ⟨rfl, rfl, rfl, rfl, rfl, ?_, ?_, ?_⟩
  · intro m hm hne
    show jsOrStr resp.message (jsOrStr resp.error "Download failed") = m
    rw [hm, jsOrStr_some_ne _ hne]
  · intro e hmsg he hne
    show jsOrStr resp.message (jsOrStr resp.error "Download failed") = e
    rw [jsOrStr_falsy _ hmsg, he, jsOrStr_some_ne _ hne]
  · intro hmsg herr
    show jsOrStr resp.message (jsOrStr resp.error "Download failed") = "Download failed"
    rw [jsOrStr_falsy _ hmsg, jsOrStr_falsy _ herr]

/-! ## C8: animation bookkeeping -/

/-- The final ease-out frame displays the rounded target: at normalized
time 1 the curve value is exactly the target. -/
theorem easeOutSample_final (a : Anim) : easeOutSample a 1 = jsRound a.target := by
  unfold easeOutSample
  congr 1
  ring

/-- C8 counterexample: the claim says at most one animation runs at a
time, but `animatePercentage` never cancels the running frame loop:
delivering a second snapshot before the first animation finished leaves
two loops running. The trace also shows the concurrent second animation
starting from 0, not from the end value 40 of the first. -/
theorem concurrent_animations_possible :
    (run initSt [.submitReset, okSubmit "t1", .tick, .resolve 0 (.ok (dlSnap 40)),
      .tick, .resolve 0 (.ok (dlSnap 80))]).anims = [⟨0, 40⟩, ⟨0, 80⟩] ∧
    ¬ ((run initSt [.submitReset, okSubmit "t1", .tick, .resolve 0 (.ok (dlSnap 40)),
      .tick, .resolve 0 (.ok (dlSnap 80))]).anims.length ≤ 1) := by
  exact ⟨by decide, by decide⟩

/-- C8 amended: each new animation starts from `lastPercent`; a final
frame (normalized time at least 1) sets `lastPercent` to the animation
target and displays its rounding, which is the target itself whenever the
target is an integer; so for animations that complete before the next
one starts, the start of animation n+1 equals the end of animation n.
The code does not enforce that at most one animation runs at a time. -/
theorem animation_chaining :
    (∀ (s : St) (t : ℚ),
      (animatePercentage s t).anims = s.anims ++ [⟨s.lastPercent, t⟩]) ∧
    (∀ (s : St) (i : ℕ) (a : Anim) (p : ℚ), s.anims.get? i = some a → 1 ≤ p →
      (step s (.animFrame i p)).lastPercent = a.target ∧
      (step s (.animFrame i p)).displayedPercent = jsRound a.target ∧
      (step s (.animFrame i p)).anims = s.anims.eraseIdx i) ∧
    (∀ (a : Anim) (n : ℤ), a.target = (n : ℚ) → easeOutSample a 1 = n) := by
  refine ⟨fun s t => rfl, ?_, ?_⟩
  · intro s i a p h hp
    have hm : min p 1 = 1 := min_eq_right hp
    simp only [step, h]
    rw [hm]
    rw [if_neg (lt_irrefl (1 : ℚ))]
    exact ⟨rfl, easeOutSample_final a, rfl⟩
  · intro a n hn
    rw [easeOutSample_final a, hn]
    unfold jsRound
    rw [Int.floor_int_add]
    rw [show ⌊(1 : ℚ) / 2⌋ = 0 by rw [Int.floor_eq_iff]; norm_num]
    exact add_zero n

/-- C8 amended witness: completing the single running animation of
`animSt` records its target 40 as the new start point, and a new
animation on the fresh state starts from `lastPercent` 0. -/
theorem animation_chaining_witness :
    (step animSt (.animFrame 0 1)).lastPercent = 40 ∧
    (step animSt (.animFrame 0 1)).anims = [] ∧
    (animatePercentage initSt 55).anims = [⟨0, 55⟩] := by
  refine ⟨(animation_chaining.2.1 animSt 0 ⟨0, 40⟩ 1 rfl le_rfl).1, ?_, ?_⟩
  · rw [(animation_chaining.2.1 animSt 0 ⟨0, 40⟩ 1 rfl le_rfl).2.2]
    rfl
  · rw [animation_chaining.1 initSt 55]
    rfl

/-! ## C9 and C10: formatters -/

/-- Unfolding equation for one iteration of the while loop of
`formatSpeed`. -/
theorem speedLoop_succ (f : ℕ) (sp : ℚ) (i : ℕ) :
    speedLoop (f + 1) sp i =
      if 1024 ≤ sp ∧ i < 3 then speedLoop f (sp / 1024) (i + 1) else (sp, i) := rfl

/-- C9: the reference values of the spec hold: 1536 bytes per second is
rendered as "1.5 KB/s" (one division by 1024 and one decimal place), 125
seconds as "2m 5s" and 3700 seconds as "1h 1m". -/
theorem formatting_reference_values :
    formatSpeed 1536 = "1.5 KB/s" ∧ formatTime 125 = "2m 5s" ∧
    formatTime 3700 = "1h 1m" := by
  refine ⟨?_, ?_, ?_⟩
  · simp only [formatSpeed]
    rw [if_neg (by norm_num : ¬ ((1536 : ℚ) = 0))]
    have e1 : speedLoop 3 1536 0 = (3 / 2, 1) := by
      show speedLoop (2 + 1) 1536 0 = (3 / 2, 1)
      rw [speedLoop_succ, if_pos ⟨by norm_num, by norm_num⟩,
        show (1536 : ℚ) / 1024 = 3 / 2 by norm_num]
      show speedLoop (1 + 1) (3 / 2) 1 = (3 / 2, 1)
      rw [speedLoop_succ, if_neg]
      intro hcon
      exact absurd hcon.1 (by norm_num)
    rw [e1]
    have hf : toFixed1 (3 / 2) = "1.5" := by
      simp only [toFixed1]
      rw [show (3 : ℚ) / 2 * 10 + 1 / 2 = 31 / 2 by norm_num]
      rw [show ⌊(31 : ℚ) / 2⌋ = 15 by rw [Int.floor_eq_iff]; norm_num]
      decide
    show toFixed1 (3 / 2) ++ " " ++ speedUnit 1 = "1.5 KB/s"
    rw [hf]
    decide
  · simp only [formatTime]
    rw [if_neg (by norm_num : ¬ ((125 : ℚ) = 0 ∨ (125 : ℚ) < 0))]
    rw [if_neg (by norm_num : ¬ ((125 : ℚ) < 60))]
    rw [if_pos (by norm_num : (125 : ℚ) < 3600)]
    have h1 : ⌊(125 : ℚ) / 60⌋ = 2 := by rw [Int.floor_eq_iff]; norm_num
    have h2 : ⌈jsMod (125 : ℚ) 60⌉ = 5 := by
      unfold jsMod
      rw [h1]
      norm_num
    rw [h1, h2]
    decide
  · simp only [formatTime]
    rw [if_neg (by norm_num : ¬ ((3700 : ℚ) = 0 ∨ (3700 : ℚ) < 0))]
    rw [if_neg (by norm_num : ¬ ((3700 : ℚ) < 60))]
    rw [if_neg (by norm_num : ¬ ((3700 : ℚ) < 3600))]
    have h1 : ⌊(3700 : ℚ) / 3600⌋ = 1 := by rw [Int.floor_eq_iff]; norm_num
    have h2 : ⌊jsMod (3700 : ℚ) 3600 / 60⌋ = 1 := by
      unfold jsMod
      rw [h1]
      rw [show ((3700 : ℚ) - 3600 * ((1 : ℤ) : ℚ)) / 60 = 5 / 3 by norm_num]
      rw [Int.floor_eq_iff]
      norm_num
    rw [h1, h2]
    decide

/-- C10: zero, negative or absent input to `formatTime` yields "0s" via
the falsy guard, rather than an error or a negative duration. -/
theorem formatTime_nonpositive :
    (∀ q : ℚ, q ≤ 0 → formatTime q = "0s") ∧ formatTimeOpt none = "0s" := by
  constructor
  · intro q hq
    unfold formatTime
    rcases lt_or_eq_of_le hq with hlt | heq
    · rw [if_pos (Or.inr hlt)]
    · rw [if_pos (Or.inl heq)]
  · rfl

/-- C10 witness at the negative input -3 and the absent input. -/
theorem formatTime_nonpositive_witness :
    formatTime (-3) = "0s" ∧ formatTimeOpt none = "0s" :=
  ⟨formatTime_nonpositive.1 (-3) (by norm_num), formatTime_nonpositive.2⟩

/-- C6 witness: a rejected submission with only the generic error field
set surfaces that field and neither stores a task id nor polls. -/
theorem submit_failure_witness :
    (step (step initSt .submitReset) (.submitDone failResp)).errorMsg = "boom" ∧
    (step (step initSt .submitReset) (.submitDone failResp)).currentTaskId = none ∧
    (step (step initSt .submitReset) (.submitDone failResp)).pollActive = false := by
  refine ⟨(submit_failure_message_and_no_polling initSt failResp rfl).2.2.2.2.2.2.1
      "boom" (Or.inl rfl) rfl (by decide),
    (submit_failure_message_and_no_polling initSt failResp rfl).1,
    (submit_failure_message_and_no_polling initSt failResp rfl).2.1⟩

end YTD
